import Mathlib

/-!
Shallow embedding of `client/circuit_breaker/circuit_breaker.go` (package
`circuit_breaker` of the pd client): a generic circuit breaker with
Closed / Open / HalfOpen states, windowed error-rate evaluation, and
outcome recording.

Modelling conventions:
* Go `uint32` arithmetic is `Nat` with an explicit wraparound `u32 (· % 2^32)`
  applied exactly where the Go program performs a `uint32` operation.
* `time.Time` and `time.Duration` are `Nat` nanoseconds (the claims only use
  nonnegative durations); `t.Before(now)` is strict `<`; `Duration.Seconds()`
  truncated through `uint32(...)` is nanoseconds divided by `10^9`
  (the float64 detour of `Seconds()` is exact on every integral second count
  that fits a `uint32`).
* Go runtime panics that the state machine itself can raise (integer divide
  by zero in the Closed-window evaluation) are an explicit `Except.error`;
  Nat division in Lean would silently yield 0 where Go faults, so the
  zero-divisor case is tested first and mapped to the fault.
* Pointer identity of the current `*State` object (Go compares
  `cb.state == state`) is modelled by a generation number `stateGen` that is
  bumped exactly when the Go code allocates a fresh `State` via `newState`;
  branches that return the received `s` (even after mutating `pendingCount`)
  keep the pointer and hence the generation.
* The three prometheus counters are `Nat` tallies; a wrapped call is a
  `CallBehavior` value describing how the caller-supplied function would
  behave if invoked (normal return with result/error/overload classification,
  or abnormal termination, i.e. a Go panic).
-/

namespace Pd

/-- Go uint32 wraparound: reduce modulo 2^32. -/
def u32 (n : Nat) : Nat := n % 4294967296

/-- Model of `uint32(d.Seconds())` for a nonnegative `time.Duration` of `d`
nanoseconds: truncated division by 10^9 (wrapped, as the conversion is only
defined in range). -/
def uint32Seconds (d : Nat) : Nat := u32 (d / 1000000000)

/-- Go `error` values visible to the breaker: the sentinel `ErrOpenState`
(`errors.New("circuit breaker is open")`, compared by identity) or some
caller-produced error (opaque, tagged by a number). -/
inductive GoError where
  | ErrOpenState
  | callerError (tag : Nat)
deriving Repr, DecidableEq

/-- `Overloading`: the caller-supplied classification of a completed call. -/
inductive Overloading where
  | No
  | Yes
deriving Repr, DecidableEq

/-- `StateType`: the three states of the circuit breaker. -/
inductive StateType where
  | StateClosed
  | StateOpen
  | StateHalfOpen
deriving Repr, DecidableEq

/-- `Settings`: the circuit breaker configuration. `ErrorRateThresholdPct`,
`MinQPSForOpen` and `HalfOpenSuccessCount` are `uint32` in Go; the two
durations are nanosecond counts. -/
structure Settings where
  ErrorRateThresholdPct : Nat
  MinQPSForOpen : Nat
  ErrorRateWindow : Nat
  CoolDownInterval : Nat
  HalfOpenSuccessCount : Nat
deriving Repr, DecidableEq

/-- `State[T]`: one sojourn of the breaker. `endTime` models the Go field
`end` (`end` is a Lean keyword); the three counters are `uint32` in Go.
The back pointer `cb` of the Go struct is not part of the value: the
configuration it reaches is passed explicitly where used. -/
structure State where
  stateType : StateType
  endTime : Nat
  pendingCount : Nat
  successCount : Nat
  failureCount : Nat
deriving Repr, DecidableEq

/-- `CircuitBreaker.newState`: fresh `State` with zeroed counters; Closed gets
deadline `now + ErrorRateWindow`, Open gets `now + CoolDownInterval`,
HalfOpen keeps the zero time and starts with `pendingCount = 1` (the request
that triggered the transition is the first probe). -/
def newState (config : Settings) (now : Nat) (stateType : StateType) : State :=
  match stateType with
  | .StateClosed =>
      { stateType := .StateClosed, endTime := now + config.ErrorRateWindow,
        pendingCount := 0, successCount := 0, failureCount := 0 }
  | .StateOpen =>
      { stateType := .StateOpen, endTime := now + config.CoolDownInterval,
        pendingCount := 0, successCount := 0, failureCount := 0 }
  | .StateHalfOpen =>
      { stateType := .StateHalfOpen, endTime := 0,
        pendingCount := 1, successCount := 0, failureCount := 0 }

/-- Runtime faults the state machine itself can raise (Go runtime panics). -/
inductive RuntimeFault where
  | integerDivideByZero
deriving Repr, DecidableEq

/-- Result of `State.onRequest`: the (possibly new) current state, the
returned error (`none` = admit, `some` = reject), whether the returned state
is a freshly allocated object (Go pointer changed), and how many times
`fastFailCounter.Inc()` ran during the evaluation. -/
structure RequestOutcome where
  state : State
  err : Option GoError
  isNewState : Bool
  fastFailInc : Nat
deriving Repr, DecidableEq

/-- `State.onRequest`: the admission evaluation / transition function,
mirroring the Go `switch` branch by branch. In the Closed branch Go computes
`observedErrorRatePct := s.failureCount * 100 / total` unconditionally once
the window has elapsed; with `total == 0` that `uint32` division is a Go
runtime panic, modelled as `Except.error .integerDivideByZero`. -/
def State.onRequest (s : State) (config : Settings) (now : Nat) :
    Except RuntimeFault RequestOutcome :=
  match s.stateType with
  | .StateClosed =>
      if s.endTime < now then
        let total := u32 (s.failureCount + s.successCount)
        if total = 0 then
          Except.error .integerDivideByZero
        else
          let observedErrorRatePct := u32 (s.failureCount * 100) / total
          if 0 < config.ErrorRateThresholdPct ∧
              u32 (uint32Seconds config.ErrorRateWindow * config.MinQPSForOpen) ≤ total ∧
              config.ErrorRateThresholdPct ≤ observedErrorRatePct then
            Except.ok { state := newState config now .StateOpen,
                        err := some .ErrOpenState, isNewState := true, fastFailInc := 1 }
          else
            Except.ok { state := newState config now .StateClosed,
                        err := none, isNewState := true, fastFailInc := 0 }
      else
        Except.ok { state := s, err := none, isNewState := false, fastFailInc := 0 }
  | .StateOpen =>
      if s.endTime < now then
        Except.ok { state := newState config now .StateHalfOpen,
                    err := none, isNewState := true, fastFailInc := 0 }
      else
        Except.ok { state := s, err := some .ErrOpenState,
                    isNewState := false, fastFailInc := 1 }
  | .StateHalfOpen =>
      if 0 < s.failureCount then
        Except.ok { state := newState config now .StateOpen,
                    err := some .ErrOpenState, isNewState := true, fastFailInc := 1 }
      else if s.successCount = config.HalfOpenSuccessCount then
        Except.ok { state := newState config now .StateClosed,
                    err := none, isNewState := true, fastFailInc := 0 }
      else if s.pendingCount < config.HalfOpenSuccessCount then
        Except.ok { state := { s with pendingCount := u32 (s.pendingCount + 1) },
                    err := none, isNewState := false, fastFailInc := 0 }
      else
        Except.ok { state := s, err := some .ErrOpenState,
                    isNewState := false, fastFailInc := 1 }

/-- Which of the breaker's three prometheus counters an action increments. -/
inductive CounterKind where
  | success
  | failure
  | fastFail
deriving Repr, DecidableEq

/-- `State.onResult`: record one completed call on the sojourn. Note the Go
code increments `s.cb.fastFailCounter` (not `failureCounter`) in the
`Yes` branch; the model reproduces that choice. -/
def State.onResult (s : State) (overloaded : Overloading) : State × CounterKind :=
  match overloaded with
  | .No => ({ s with successCount := u32 (s.successCount + 1) }, .success)
  | .Yes => ({ s with failureCount := u32 (s.failureCount + 1) }, .fastFail)

/-- The breaker's three observability counters (prometheus tallies). -/
structure Counters where
  success : Nat
  failure : Nat
  fastFail : Nat
deriving Repr, DecidableEq

/-- Increment one of the three counters. -/
def Counters.inc (c : Counters) (k : CounterKind) : Counters :=
  match k with
  | .success => { c with success := c.success + 1 }
  | .failure => { c with failure := c.failure + 1 }
  | .fastFail => { c with fastFail := c.fastFail + 1 }

/-- `CircuitBreaker[T]`: configuration, current state, and the three
counters. `stateGen` models the pointer identity of the current `*State`
object: it is bumped exactly when a fresh `State` is allocated. -/
structure CircuitBreaker where
  config : Settings
  state : State
  stateGen : Nat
  counters : Counters
deriving Repr, DecidableEq

/-- `NewCircuitBreaker`: initial breaker, Closed with a fresh window. -/
def NewCircuitBreaker (config : Settings) (now : Nat) : CircuitBreaker :=
  { config := config, state := newState config now .StateClosed, stateGen := 0,
    counters := { success := 0, failure := 0, fastFail := 0 } }

/-- `CircuitBreaker.onRequest`: run the state machine under the lock, install
the resulting state, and return it (as its generation token) together with
the admission error. A runtime fault inside `State.onRequest` propagates
before `cb.state` is reassigned, leaving the breaker unchanged. -/
def CircuitBreaker.onRequest (cb : CircuitBreaker) (now : Nat) :
    Except RuntimeFault (CircuitBreaker × Nat × Option GoError) :=
  match cb.state.onRequest cb.config now with
  | .error f => .error f
  | .ok r =>
      let gen := if r.isNewState then cb.stateGen + 1 else cb.stateGen
      let cnts := { cb.counters with fastFail := cb.counters.fastFail + r.fastFailInc }
      .ok ({ cb with state := r.state, stateGen := gen, counters := cnts }, gen, r.err)

/-- `CircuitBreaker.onResult`: record an outcome against the admitting state,
but only if that state (identified by its generation token) is still the
breaker's current one; a stale outcome is silently dropped. -/
def CircuitBreaker.onResult (cb : CircuitBreaker) (stateToken : Nat)
    (overloaded : Overloading) : CircuitBreaker :=
  if stateToken = cb.stateGen then
    let sk := cb.state.onResult overloaded
    { cb with state := sk.1, counters := cb.counters.inc sk.2 }
  else
    cb

/-- Behaviour of the caller-supplied function, were it invoked: a normal
return carrying the untyped result (`none` = nil interface value), the
call's own error, and the overload classification; or abnormal termination
(a Go panic escaping the call). -/
inductive CallBehavior (α : Type) where
  | returns (result : Option α) (err : Option GoError) (overloaded : Overloading)
  | abnormal
deriving Repr, DecidableEq

/-- What an `Execute`/`ExecuteAny` invocation produces for its caller. -/
inductive ExecResult (α : Type) where
  | ret (result : Option α) (err : Option GoError)
  | panicked
  | fault (f : RuntimeFault)
deriving Repr, DecidableEq

/-- Full observable effect of one `Execute`/`ExecuteAny` invocation: what is
returned (or propagated), whether the caller-supplied function was invoked,
and the breaker afterwards. -/
structure ExecTrace (α : Type) where
  res : ExecResult α
  invoked : Bool
  breaker : CircuitBreaker
deriving Repr, DecidableEq

/-- `CircuitBreaker.ExecuteAny`: admission evaluation, then — if admitted —
the call runs; its outcome is recorded against the admitting state. If the
call terminates abnormally, the deferred `recover` records `Yes` against the
admitting state and the panic is re-raised (`.panicked`). -/
def CircuitBreaker.ExecuteAny {α : Type} (cb : CircuitBreaker) (now : Nat)
    (call : CallBehavior α) : ExecTrace α :=
  match cb.onRequest now with
  | .error f => { res := .fault f, invoked := false, breaker := cb }
  | .ok (cb1, _token, some e) =>
      { res := .ret none (some e), invoked := false, breaker := cb1 }
  | .ok (cb1, token, none) =>
      match call with
      | .abnormal =>
          { res := .panicked, invoked := true, breaker := cb1.onResult token .Yes }
      | .returns r cerr overloaded =>
          { res := .ret r cerr, invoked := true,
            breaker := cb1.onResult token overloaded }

/-- `CircuitBreaker.Execute`: the typed wrapper over `ExecuteAny`. A `nil`
untyped result (in particular every rejection) becomes the zero value of `T`
(`default`); otherwise the result is the type assertion `result.(T)`. -/
def CircuitBreaker.Execute {α : Type} [Inhabited α] (cb : CircuitBreaker) (now : Nat)
    (call : CallBehavior α) : ExecTrace α :=
  let t := cb.ExecuteAny now call
  match t.res with
  | .ret none err => { t with res := .ret (some default) err }
  | .ret (some v) err => { t with res := .ret (some v) err }
  | _other => t

/-- A sample configuration used by concrete evaluations: 50% threshold,
1 QPS minimum, 1s window, 1s cooldown, 3 half-open probes. -/
def testSettings : Settings :=
  { ErrorRateThresholdPct := 50, MinQPSForOpen := 1,
    ErrorRateWindow := 1000000000, CoolDownInterval := 1000000000,
    HalfOpenSuccessCount := 3 }

/-- C1: the spec requires that a Closed window evaluated with
`successCount + failureCount == 0` must not fault, must not trip, and must
start a fresh Closed sojourn admitting the request. The code instead
computes `s.failureCount * 100 / total` before any zero check, so every such
evaluation is a runtime integer-divide-by-zero panic: the claim is the
intent and the code faults. This theorem evaluates the code on the whole
family of failing inputs. -/
theorem c1_zero_total_closed_window_faults (s : State) (cfg : Settings) (now : Nat)
    (h1 : s.stateType = .StateClosed) (h2 : s.endTime < now)
    (h3 : s.successCount = 0) (h4 : s.failureCount = 0) :
    s.onRequest cfg now = .error .integerDivideByZero := by
  obtain ⟨st, et, p, sc, fc⟩ := s
  dsimp only at h1 h2 h3 h4
  subst h1; subst h3; subst h4
  simp [State.onRequest, h2, u32]

/-- Witness for C1: a fresh breaker whose first request arrives after the
error-rate window has already elapsed hits the divide-by-zero. -/
theorem c1_witness :
    State.onRequest
        { stateType := .StateClosed, endTime := 1000000000, pendingCount := 0,
          successCount := 0, failureCount := 0 } testSettings 2000000000 =
      .error .integerDivideByZero :=
  c1_zero_total_closed_window_faults _ testSettings 2000000000 rfl (by decide) rfl rfl

/-- C2: the claim (and the spec) say an admitted call classified as
overloaded increments the breaker's failure counter. The code's
`State.onResult` increments `fastFailCounter` in the `Yes` branch and
`failureCounter` is never incremented anywhere, so after one admitted
overloaded call the counters read success 0, failure 0, fast-fail 1 —
the code contradicts the claim (and the spec's own definition of fast-fail
as a rejection without invocation). -/
theorem c2_overloaded_call_increments_fastfail_not_failure :
    (((NewCircuitBreaker testSettings 0).ExecuteAny 1
        (CallBehavior.returns (some (7 : Nat)) none .Yes)).invoked = true) ∧
    (((NewCircuitBreaker testSettings 0).ExecuteAny 1
        (CallBehavior.returns (some (7 : Nat)) none .Yes)).breaker.counters =
      { success := 0, failure := 0, fastFail := 1 }) :=
  ⟨rfl, rfl⟩

/-- C5: while Open and the cooldown deadline has not passed
(`now ≤ end`, since Go `end.Before(now)` is strict), every request is
rejected with the sentinel error, the fast-fail counter is incremented, and
the very same state object is kept; once the cooldown has elapsed
(`end < now`), the request is admitted and the breaker moves to a fresh
HalfOpen state whose `pendingCount` starts at 1, counting this request as
the first probe. -/
theorem c5_open_state_eval (s : State) (cfg : Settings) (now : Nat)
    (h1 : s.stateType = .StateOpen) :
    (now ≤ s.endTime →
      s.onRequest cfg now =
        .ok { state := s, err := some .ErrOpenState,
              isNewState := false, fastFailInc := 1 }) ∧
    (s.endTime < now →
      s.onRequest cfg now =
        .ok { state := newState cfg now .StateHalfOpen, err := none,
              isNewState := true, fastFailInc := 0 } ∧
      (newState cfg now .StateHalfOpen).pendingCount = 1) := by
  obtain ⟨st, et, p, sc, fc⟩ := s
  dsimp only at h1 ⊢
  subst h1
  constructor
  · intro h
    simp [State.onRequest, Nat.not_lt.mpr h]
  · intro h
    simp [State.onRequest, h, newState]

/-- Witness for C5: an Open state with deadline 10, evaluated at time 10
(rejected, state kept) — both conjuncts instantiated. -/
theorem c5_witness :
    ((10 : Nat) ≤ (10 : Nat) →
      State.onRequest
          { stateType := .StateOpen, endTime := 10, pendingCount := 0,
            successCount := 0, failureCount := 0 } testSettings 10 =
        .ok { state := { stateType := .StateOpen, endTime := 10, pendingCount := 0,
                         successCount := 0, failureCount := 0 },
              err := some .ErrOpenState, isNewState := false, fastFailInc := 1 }) ∧
    ((10 : Nat) < (10 : Nat) →
      State.onRequest
          { stateType := .StateOpen, endTime := 10, pendingCount := 0,
            successCount := 0, failureCount := 0 } testSettings 10 =
        .ok { state := newState testSettings 10 .StateHalfOpen, err := none,
              isNewState := true, fastFailInc := 0 } ∧
      (newState testSettings 10 .StateHalfOpen).pendingCount = 1) :=
  c5_open_state_eval
    { stateType := .StateOpen, endTime := 10, pendingCount := 0,
      successCount := 0, failureCount := 0 } testSettings 10 rfl

/-- C6: recording an outcome whose admitting state is no longer the
breaker's current one (its generation token differs from the current
generation) leaves the breaker — state and all counters — completely
unchanged: the stale outcome is silently dropped. -/
theorem c6_stale_outcome_dropped (cb : CircuitBreaker) (token : Nat)
    (overloaded : Overloading) (h : token ≠ cb.stateGen) :
    cb.onResult token overloaded = cb := by
  simp [CircuitBreaker.onResult, h]

/-- Witness for C6: reporting with stale token 7 against a fresh breaker
(current generation 0) changes nothing. -/
theorem c6_witness :
    (NewCircuitBreaker testSettings 0).onResult 7 .Yes = NewCircuitBreaker testSettings 0 :=
  c6_stale_outcome_dropped (NewCircuitBreaker testSettings 0) 7 .Yes (by decide)

/-- C9: with `HalfOpenSuccessCount == 0`, the first admission evaluation of
a freshly created HalfOpen state (counters all zero, so
`successCount == 0 == HalfOpenSuccessCount` and no probe failed) transitions
straight to a fresh Closed sojourn and admits the request, although no real
probe outcome was ever observed. -/
theorem c9_zero_half_open_success_count_closes_immediately
    (cfg : Settings) (t now : Nat) (h : cfg.HalfOpenSuccessCount = 0) :
    (newState cfg t .StateHalfOpen).onRequest cfg now =
      .ok { state := newState cfg now .StateClosed, err := none,
            isNewState := true, fastFailInc := 0 } := by
  simp [newState, State.onRequest, h]

/-- Witness for C9: concrete configuration with `HalfOpenSuccessCount = 0`. -/
theorem c9_witness :
    (newState { testSettings with HalfOpenSuccessCount := 0 } 0 .StateHalfOpen).onRequest
        { testSettings with HalfOpenSuccessCount := 0 } 5 =
      .ok { state := newState { testSettings with HalfOpenSuccessCount := 0 } 5 .StateClosed,
            err := none, isNewState := true, fastFailInc := 0 } :=
  c9_zero_half_open_success_count_closes_immediately
    { testSettings with HalfOpenSuccessCount := 0 } 0 5 rfl

/-- C4: the HalfOpen admission evaluation. (1) If any recorded probe failed
(`failureCount > 0`): back to Open with deadline `now + CoolDownInterval`,
reject with the sentinel, increment fast-fail. (2) Else if
`successCount == HalfOpenSuccessCount`: fresh Closed sojourn with reset
counters and deadline `now + ErrorRateWindow`, admit. (3) Else if
`pendingCount < HalfOpenSuccessCount`: increment `pendingCount`, admit
another probe in the same state object. (4) Otherwise reject with the
sentinel and stay in the same HalfOpen state. The hypothesis bounds
`HalfOpenSuccessCount` by the uint32 range so that the `pendingCount`
increment in branch (3) does not wrap. -/
theorem c4_half_open_eval (s : State) (cfg : Settings) (now : Nat)
    (h1 : s.stateType = .StateHalfOpen)
    (hcfg : cfg.HalfOpenSuccessCount < 4294967296) :
    (0 < s.failureCount →
      s.onRequest cfg now =
        .ok { state := newState cfg now .StateOpen, err := some .ErrOpenState,
              isNewState := true, fastFailInc := 1 } ∧
      (newState cfg now .StateOpen).endTime = now + cfg.CoolDownInterval) ∧
    (s.failureCount = 0 → s.successCount = cfg.HalfOpenSuccessCount →
      s.onRequest cfg now =
        .ok { state := newState cfg now .StateClosed, err := none,
              isNewState := true, fastFailInc := 0 } ∧
      (newState cfg now .StateClosed).successCount = 0 ∧
      (newState cfg now .StateClosed).failureCount = 0) ∧
    (s.failureCount = 0 → s.successCount ≠ cfg.HalfOpenSuccessCount →
      s.pendingCount < cfg.HalfOpenSuccessCount →
      s.onRequest cfg now =
        .ok { state := { s with pendingCount := s.pendingCount + 1 }, err := none,
              isNewState := false, fastFailInc := 0 }) ∧
    (s.failureCount = 0 → s.successCount ≠ cfg.HalfOpenSuccessCount →
      cfg.HalfOpenSuccessCount ≤ s.pendingCount →
      s.onRequest cfg now =
        .ok { state := s, err := some .ErrOpenState,
              isNewState := false, fastFailInc := 1 }) := by
  obtain ⟨st, et, p, sc, fc⟩ := s
  dsimp only at h1 ⊢
  subst h1
  refine ⟨?_, ?_, ?_, ?_⟩
  · intro hf
    simp [State.onRequest, hf, newState]
  · intro hf hs
    simp [State.onRequest, hf, hs, newState]
  · intro hf hs hp
    have hlt : p + 1 < 4294967296 := Nat.lt_of_le_of_lt hp hcfg
    simp [State.onRequest, hf, hs, hp, u32, Nat.mod_eq_of_lt hlt]
  · intro hf hs hp
    simp [State.onRequest, hf, hs, Nat.not_lt.mpr hp]

/-- Witness for C4: a HalfOpen state with one success, no failure and two
pending probes under `HalfOpenSuccessCount = 3` — branch (3) applies. -/
theorem c4_witness :
    State.onRequest
        { stateType := .StateHalfOpen, endTime := 0, pendingCount := 2,
          successCount := 1, failureCount := 0 } testSettings 5 =
      .ok { state := { stateType := .StateHalfOpen, endTime := 0, pendingCount := 3,
                       successCount := 1, failureCount := 0 },
            err := none, isNewState := false, fastFailInc := 0 } :=
  (c4_half_open_eval
      { stateType := .StateHalfOpen, endTime := 0, pendingCount := 2,
        successCount := 1, failureCount := 0 } testSettings 5 rfl
      (by decide)).2.2.1 rfl (by decide) (by decide)

/-- C3 counterexample: the claim says that whenever a Closed window has
elapsed and the trip condition does not hold, the breaker starts a fresh
Closed sojourn and admits the request. At a concrete elapsed window with
zero recorded requests the trip condition is false (0 is below
`ErrorRateWindow.seconds * MinQPSForOpen = 1`), yet the evaluation does not
produce the fresh Closed sojourn — it faults with a divide by zero. -/
theorem c3_counterexample_zero_total :
    ¬ (State.onRequest
          { stateType := .StateClosed, endTime := 1000000000, pendingCount := 0,
            successCount := 0, failureCount := 0 } testSettings 2000000000 =
        .ok { state := newState testSettings 2000000000 .StateClosed, err := none,
              isNewState := true, fastFailInc := 0 }) := by
  intro h
  have h1 : (Except.error RuntimeFault.integerDivideByZero :
        Except RuntimeFault RequestOutcome) =
      Except.ok { state := newState testSettings 2000000000 .StateClosed, err := none,
                  isNewState := true, fastFailInc := 0 } := h
  exact Except.noConfusion h1

/-- C3 (amended): for a Closed sojourn whose window has elapsed and whose
window recorded at least one request (`total ≥ 1`; the zero-total case
faults, see C1), with the uint32 arithmetic unwrapped (total,
`failureCount * 100`, window seconds and their product with `MinQPSForOpen`
all below 2^32), the evaluation trips to Open — rejecting with the sentinel
and incrementing fast-fail — if and only if `ErrorRateThresholdPct > 0` and
`total ≥ ErrorRateWindow.seconds * MinQPSForOpen` and
`failureCount * 100 / total ≥ ErrorRateThresholdPct` (integer division);
otherwise it starts a fresh Closed sojourn and admits. In particular a
total below `ErrorRateWindow.seconds * MinQPSForOpen` never trips, and
`ErrorRateThresholdPct = 0` disables tripping entirely. -/
theorem c3_closed_trip_condition (s : State) (cfg : Settings) (now : Nat)
    (h1 : s.stateType = .StateClosed) (h2 : s.endTime < now)
    (ht : 0 < s.failureCount + s.successCount)
    (hw1 : s.failureCount + s.successCount < 4294967296)
    (hw2 : s.failureCount * 100 < 4294967296)
    (hw3 : cfg.ErrorRateWindow / 1000000000 < 4294967296)
    (hw4 : cfg.ErrorRateWindow / 1000000000 * cfg.MinQPSForOpen < 4294967296) :
    (s.onRequest cfg now =
        .ok { state := newState cfg now .StateOpen, err := some .ErrOpenState,
              isNewState := true, fastFailInc := 1 } ↔
      (0 < cfg.ErrorRateThresholdPct ∧
       cfg.ErrorRateWindow / 1000000000 * cfg.MinQPSForOpen ≤
         s.failureCount + s.successCount ∧
       cfg.ErrorRateThresholdPct ≤
         s.failureCount * 100 / (s.failureCount + s.successCount))) ∧
    (¬ (0 < cfg.ErrorRateThresholdPct ∧
        cfg.ErrorRateWindow / 1000000000 * cfg.MinQPSForOpen ≤
          s.failureCount + s.successCount ∧
        cfg.ErrorRateThresholdPct ≤
          s.failureCount * 100 / (s.failureCount + s.successCount)) →
      s.onRequest cfg now =
        .ok { state := newState cfg now .StateClosed, err := none,
              isNewState := true, fastFailInc := 0 }) ∧
    (s.failureCount + s.successCount <
        cfg.ErrorRateWindow / 1000000000 * cfg.MinQPSForOpen →
      s.onRequest cfg now =
        .ok { state := newState cfg now .StateClosed, err := none,
              isNewState := true, fastFailInc := 0 }) ∧
    (cfg.ErrorRateThresholdPct = 0 →
      s.onRequest cfg now =
        .ok { state := newState cfg now .StateClosed, err := none,
              isNewState := true, fastFailInc := 0 }) := by
  obtain ⟨st, et, p, sc, fc⟩ := s
  dsimp only at h1 h2 ht hw1 hw2 ⊢
  subst h1
  have e1 : u32 (fc + sc) = fc + sc := Nat.mod_eq_of_lt hw1
  have e2 : u32 (fc * 100) = fc * 100 := Nat.mod_eq_of_lt hw2
  have e3 : uint32Seconds cfg.ErrorRateWindow = cfg.ErrorRateWindow / 1000000000 :=
    Nat.mod_eq_of_lt hw3
  have e4 : u32 (cfg.ErrorRateWindow / 1000000000 * cfg.MinQPSForOpen) =
      cfg.ErrorRateWindow / 1000000000 * cfg.MinQPSForOpen :=
    Nat.mod_eq_of_lt hw4
  have hne : ¬ (fc + sc = 0) := Nat.pos_iff_ne_zero.mp ht
  by_cases hc : (0 < cfg.ErrorRateThresholdPct ∧
      cfg.ErrorRateWindow / 1000000000 * cfg.MinQPSForOpen ≤ fc + sc ∧
      cfg.ErrorRateThresholdPct ≤ fc * 100 / (fc + sc))
  · refine ⟨?_, ?_, ?_, ?_⟩
    · simp only [State.onRequest, h2, if_true, e1, hne, if_false, e2, e3, e4, if_pos hc]
      exact ⟨fun _ => hc, fun _ => by simp⟩
    · intro hnc; exact absurd hc hnc
    · intro hlt; exact absurd hc.2.1 (Nat.not_le.mpr hlt)
    · intro h0; exact absurd hc.1 (by simp [h0])
  · have hdone : State.onRequest
        { stateType := .StateClosed, endTime := et, pendingCount := p,
          successCount := sc, failureCount := fc } cfg now =
        .ok { state := newState cfg now .StateClosed, err := none,
              isNewState := true, fastFailInc := 0 } := by
      simp only [State.onRequest, h2, if_true, e1, hne, if_false, e2, e3, e4, if_neg hc]
    refine ⟨?_, fun _ => hdone, fun _ => hdone, fun _ => hdone⟩
    rw [hdone]
    constructor
    · intro hfalse
      exact absurd (by injection hfalse) (by simp [newState])
    · intro hcc; exact absurd hcc hc

/-- Witness for C3: an elapsed Closed window with 6 failures and
4 successes under a 50% threshold, 1s window and minimum QPS 1 — the trip
condition holds (60% ≥ 50%, 10 ≥ 1), so the breaker trips to Open. -/
theorem c3_witness :
    State.onRequest
        { stateType := .StateClosed, endTime := 0, pendingCount := 0,
          successCount := 4, failureCount := 6 } testSettings 1 =
      .ok { state := newState testSettings 1 .StateOpen, err := some .ErrOpenState,
            isNewState := true, fastFailInc := 1 } :=
  ((c3_closed_trip_condition
      { stateType := .StateClosed, endTime := 0, pendingCount := 0,
        successCount := 4, failureCount := 6 } testSettings 1 rfl (by decide)
      (by decide) (by decide) (by decide) (by decide) (by decide)).1).mpr (by decide)

/-- Helper: the only error value `State.onRequest` ever returns is the
sentinel `ErrOpenState`, in every state and on every branch. -/
theorem State.onRequest_err_sentinel (s : State) (cfg : Settings) (now : Nat)
    (r : RequestOutcome) (h : s.onRequest cfg now = .ok r) (e : GoError)
    (he : r.err = some e) : e = .ErrOpenState := by
  obtain ⟨st, et, p, sc, fc⟩ := s
  cases st <;> simp only [State.onRequest] at h <;> repeat' split at h
  all_goals first
    | exact Except.noConfusion h
    | (injection h with h1; subst h1; simp_all)

/-- A breaker sitting in an Open state (cooldown deadline 100), used by
concrete witnesses. -/
def openBreaker : CircuitBreaker :=
  { config := testSettings,
    state := { stateType := .StateOpen, endTime := 100, pendingCount := 0,
               successCount := 0, failureCount := 0 },
    stateGen := 0, counters := { success := 0, failure := 0, fastFail := 0 } }

/-- `openBreaker` after one rejected request: only fast-fail moved. -/
def openBreakerAfterReject : CircuitBreaker :=
  { openBreaker with counters := { success := 0, failure := 0, fastFail := 1 } }

/-- C7: whenever the admission evaluation rejects (returns any error), that
error is the single sentinel `ErrOpenState`; `ExecuteAny` returns the nil
result with that sentinel, and the typed `Execute` returns the zero value of
the result type with that sentinel — and in both the caller-supplied
function is never invoked. -/
theorem c7_rejection_returns_sentinel_and_skips_call {α : Type} [Inhabited α]
    (cb : CircuitBreaker) (now : Nat) (call : CallBehavior α)
    (cb1 : CircuitBreaker) (tk : Nat) (e : GoError)
    (h : cb.onRequest now = .ok (cb1, tk, some e)) :
    e = .ErrOpenState ∧
    cb.ExecuteAny now call =
      { res := .ret none (some GoError.ErrOpenState),
        invoked := false, breaker := cb1 } ∧
    cb.Execute now call =
      { res := .ret (some default) (some GoError.ErrOpenState),
        invoked := false, breaker := cb1 } := by
  have hsent : e = .ErrOpenState := by
    unfold CircuitBreaker.onRequest at h
    cases hr : cb.state.onRequest cb.config now with
    | error f => rw [hr] at h; exact Except.noConfusion h
    | ok r =>
        rw [hr] at h
        simp only [Except.ok.injEq, Prod.mk.injEq] at h
        exact State.onRequest_err_sentinel cb.state cb.config now r hr e h.2.2
  subst hsent
  have hx : cb.ExecuteAny now call =
      { res := .ret none (some GoError.ErrOpenState),
        invoked := false, breaker := cb1 } := by
    unfold CircuitBreaker.ExecuteAny
    rw [h]
  refine ⟨rfl, hx, ?_⟩
  unfold CircuitBreaker.Execute
  rw [hx]

/-- Witness for C7: the Open breaker rejects a request at time 5 (deadline
100): sentinel error, zero-value result, function not invoked. -/
theorem c7_witness :
    GoError.ErrOpenState = GoError.ErrOpenState ∧
    openBreaker.ExecuteAny 5 (CallBehavior.returns (some (42 : Nat)) none .No) =
      { res := .ret none (some GoError.ErrOpenState),
        invoked := false, breaker := openBreakerAfterReject } ∧
    openBreaker.Execute 5 (CallBehavior.returns (some (42 : Nat)) none .No) =
      { res := .ret (some default) (some GoError.ErrOpenState),
        invoked := false, breaker := openBreakerAfterReject } :=
  c7_rejection_returns_sentinel_and_skips_call openBreaker 5
    (CallBehavior.returns (some (42 : Nat)) none .No)
    openBreakerAfterReject 0 GoError.ErrOpenState (by rfl)

/-- C8: if the admission evaluation admits the request and the wrapped call
terminates abnormally, the deferred handler records an overloaded (failure)
outcome against the admitting state — its `failureCount` is incremented —
and the abnormal termination propagates to the caller (`.panicked`),
neither suppressed nor converted. -/
theorem c8_abnormal_termination_records_failure {α : Type}
    (cb cb1 : CircuitBreaker) (now tk : Nat)
    (h : cb.onRequest now = .ok (cb1, tk, none)) :
    cb.ExecuteAny now (CallBehavior.abnormal : CallBehavior α) =
      { res := .panicked, invoked := true, breaker := cb1.onResult tk .Yes } ∧
    (cb1.onResult tk .Yes).state.failureCount = u32 (cb1.state.failureCount + 1) := by
  have htk : tk = cb1.stateGen := by
    unfold CircuitBreaker.onRequest at h
    cases hr : cb.state.onRequest cb.config now with
    | error f => rw [hr] at h; exact Except.noConfusion h
    | ok r =>
        rw [hr] at h
        simp only [Except.ok.injEq, Prod.mk.injEq] at h
        obtain ⟨hcb1, hgen, _⟩ := h
        rw [← hcb1]
        exact hgen.symm
  constructor
  · unfold CircuitBreaker.ExecuteAny
    rw [h]
  · simp [CircuitBreaker.onResult, htk, State.onResult]

/-- Witness for C8: a fresh Closed breaker admits at time 1; the abnormal
call is recorded as a failure on the admitting state and re-raised. -/
theorem c8_witness :
    (NewCircuitBreaker testSettings 0).ExecuteAny 1
        (CallBehavior.abnormal : CallBehavior Nat) =
      { res := .panicked, invoked := true,
        breaker := (NewCircuitBreaker testSettings 0).onResult 0 .Yes } ∧
    ((NewCircuitBreaker testSettings 0).onResult 0 .Yes).state.failureCount =
      u32 ((NewCircuitBreaker testSettings 0).state.failureCount + 1) :=
  c8_abnormal_termination_records_failure
    (NewCircuitBreaker testSettings 0) (NewCircuitBreaker testSettings 0) 1 0 (by rfl)

/-- C10: whenever `ExecuteAny` produces the nil untyped result (in
particular on every rejection, where no call result exists), the typed
`Execute` wrapper returns the zero value of the type parameter together
with the same error, instead of asserting a type on the nil result. -/
theorem c10_nil_result_yields_zero_value {α : Type} [Inhabited α]
    (cb cb1 : CircuitBreaker) (now : Nat) (call : CallBehavior α)
    (err : Option GoError) (inv : Bool)
    (h : cb.ExecuteAny now call =
      { res := .ret none err, invoked := inv, breaker := cb1 }) :
    cb.Execute now call =
      { res := .ret (some default) err, invoked := inv, breaker := cb1 } := by
  unfold CircuitBreaker.Execute
  rw [h]

/-- Witness for C10: the Open breaker rejects at time 5, `ExecuteAny` gives
the nil result, and `Execute` turns it into the zero value `0 : Nat`. -/
theorem c10_witness :
    openBreaker.Execute 5 (CallBehavior.returns (some (42 : Nat)) none .No) =
      { res := .ret (some default) (some GoError.ErrOpenState),
        invoked := false, breaker := openBreakerAfterReject } :=
  c10_nil_result_yields_zero_value openBreaker openBreakerAfterReject 5
    (CallBehavior.returns (some (42 : Nat)) none .No)
    (some GoError.ErrOpenState) false (by rfl)

end Pd
